import Mathlib

/-!
# Verification of the btc-cycle-timer forecasting core

Shallow embedding of the forecasting core of the `btc-cycle-timer` repository:
the forecast combiner (`forecast_updater.ForecastUpdater._combine_predictions`),
the cycle-phase classifier (`config.get_current_cycle_phase`), the model
ensemble inference entry point (`dynamic_predictor.DynamicPredictor.make_ensemble_prediction`),
the accuracy tracker and adaptive retrainer
(`dynamic_predictor.DynamicPredictor.analyze_forecast_accuracy` /
`adaptive_model_update`), and the feature builder
(`dynamic_predictor.DynamicPredictor.prepare_advanced_features`).

Modelling conventions:
* Python floats are modelled as exact rationals (`ℚ`); dates/timestamps as
  integer day numbers (`ℤ`), matching `(a - b).days` arithmetic on dates.
* A pandas `NaN` cell is `Option.none`; a dropped row is a filtered-out row.
  Where a float division yields `±inf` (nonzero numerator over zero
  denominator) the cell is *retained* by `dropna`, so it is modelled as a
  `some` cell; where it yields `NaN` (`0.0/0.0`) it is modelled as `none`.
* Python `None` results are `Option.none`; a `dict` that may lack a key holds
  `Option` fields.  An uncaught Python exception is modelled explicitly where
  the function under study can actually raise.
* The sklearn regressors themselves are opaque learned functions; where a
  claim depends only on how their outputs are combined, the per-model outputs
  are parameters of the embedding.
-/

namespace BtcCycleTimer

/-! ## Forecast combiner (`forecast_updater.py`, `_combine_predictions`)

Each of the three method outputs handed to `_combine_predictions` is either
Python `None` or a dict.  For the combiner only two entries of each dict
matter: the method's point estimate (key `'ensemble_prediction'` for ML,
`'estimated_peak'` for the cycle method, `'predicted_price'` for the
technical method) and its confidence entry (key `'model_agreement'` for ML,
`'confidence'` for the other two).  A dict missing the point-estimate key is
an error dict (e.g. `{'method': ..., 'error': ...}`). -/

/-- One method's output dict: `value` is the point-estimate entry,
`conf` the confidence/agreement entry; `none` models a missing key. -/
structure MethodDict where
  value : Option ℚ
  conf : Option ℚ
deriving DecidableEq, Repr

/-- The dict returned by `_combine_predictions` on the success path. -/
structure CombinedForecast where
  combined_prediction : ℚ
  predicted_change : ℚ
  method_weights : List (String × ℚ)
  individual_ml : Option ℚ
  individual_cycle : Option ℚ
  individual_technical : Option ℚ
  confidence : ℚ
deriving DecidableEq, Repr

/-- Observable outcome of a `_combine_predictions` call: the
`{'error': 'No valid predictions available'}` dict, an uncaught Python
exception, or the combined-forecast dict. -/
inductive CombineResult where
  | errorNoValid : CombineResult
  | raised (exn : String) : CombineResult
  | ok (out : CombinedForecast) : CombineResult
deriving DecidableEq, Repr

/-- Base weight 0.5 given to the ML method. -/
def mlWeight : ℚ := 1/2

/-- Base weight 0.3 given to the cycle-analysis method. -/
def cycleWeight : ℚ := 3/10

/-- Base weight 0.2 given to the technical-analysis method. -/
def technicalWeight : ℚ := 1/5

/-- The `(prediction, weight)` entries a method contributes to the
`predictions` / `weights` lists: one entry when the input is a dict holding
the point-estimate key, none otherwise (`None` input or error dict). -/
def methodEntry (d : Option MethodDict) (w : ℚ) : List (ℚ × ℚ) :=
  match d with
  | some md =>
    match md.value with
    | some v => [(v, w)]
    | none => []
  | none => []

/-- The confidence values collected by `_calculate_combined_confidence`:
the `'model_agreement'` / `'confidence'` entry of each non-`None` input dict
that has one. -/
def confEntry (d : Option MethodDict) : List ℚ :=
  match d with
  | some md =>
    match md.conf with
    | some c => [c]
    | none => []
  | none => []

/-- `_calculate_combined_confidence`: `np.mean` of the collected confidence
values, or `0.5` when none were collected. -/
def calculate_combined_confidence (ml_pred cycle_pred tech_pred : Option MethodDict) : ℚ :=
  let confidences := confEntry ml_pred ++ confEntry cycle_pred ++ confEntry tech_pred
  if confidences = [] then 1/2 else confidences.sum / confidences.length

/-- `ForecastUpdater._combine_predictions`.  Builds the `predictions` and
`weights` lists from the available methods (ML 0.5, cycle 0.3, technical
0.2), returns the error dict when no method is available, and otherwise the
combined dict whose point estimate is `sum(p*w) / total_weight` and whose
`method_weights` is `dict(zip(['ml','cycle','technical'], weights))` — `zip`
truncates at the shorter list, so the keys are paired positionally with the
weights that were actually collected.  Two exception paths of the source are
modelled: with `current_price == 0` the `predicted_change` division raises
`ZeroDivisionError`, and (evaluated after it, in the dict-literal order of
the source) `ml_pred.get(...)` / `cycle_pred.get(...)` / `tech_pred.get(...)`
raise `AttributeError` when the corresponding argument is Python `None`. -/
def combine_predictions (ml_pred cycle_pred tech_pred : Option MethodDict)
    (current_price : ℚ) : CombineResult :=
  let pw := methodEntry ml_pred mlWeight ++ methodEntry cycle_pred cycleWeight
      ++ methodEntry tech_pred technicalWeight
  if pw = [] then .errorNoValid
  else
    let total_weight := (pw.map Prod.snd).sum
    let weighted_prediction := (pw.map (fun x => x.1 * x.2)).sum / total_weight
    if current_price = 0 then .raised "ZeroDivisionError"
    else if ml_pred = none ∨ cycle_pred = none ∨ tech_pred = none then
      .raised "AttributeError"
    else
      .ok {
        combined_prediction := weighted_prediction
        predicted_change := (weighted_prediction - current_price) / current_price * 100
        method_weights := List.zip ["ml", "cycle", "technical"] (pw.map Prod.snd)
        individual_ml := ml_pred.bind MethodDict.value
        individual_cycle := cycle_pred.bind MethodDict.value
        individual_technical := tech_pred.bind MethodDict.value
        confidence := calculate_combined_confidence ml_pred cycle_pred tech_pred
      }

/-- Spec-side weighted average with renormalization: the sum of base weight
times point estimate over the available methods, divided by the sum of the
available methods' base weights (an unavailable method contributes `0` to
both sums). -/
def specWeightedAverage (mlv cycv techv : Option ℚ) : ℚ :=
  ((mlv.getD 0) * (if mlv.isSome then mlWeight else 0)
      + (cycv.getD 0) * (if cycv.isSome then cycleWeight else 0)
      + (techv.getD 0) * (if techv.isSome then technicalWeight else 0))
    / ((if mlv.isSome then mlWeight else 0) + (if cycv.isSome then cycleWeight else 0)
      + (if techv.isSome then technicalWeight else 0))

/-- Spec-side list of the base weights of the methods that contributed, in
method order. -/
def contributedBaseWeights (mlAvail cycAvail techAvail : Bool) : List ℚ :=
  (if mlAvail then [mlWeight] else []) ++ (if cycAvail then [cycleWeight] else [])
    ++ (if techAvail then [technicalWeight] else [])

/-- Extract the sum of the recorded `method_weights` values from a combiner
outcome, when the call returned a combined dict. -/
def resultWeightSum : CombineResult → Option ℚ
  | .ok out => some ((out.method_weights.map Prod.snd).sum)
  | _ => none

/-! ## Cycle phase classifier (`config.py`, `get_current_cycle_phase`) -/

/-- `PHASE_ACCUMULATION_END` (days from bottom). -/
def PHASE_ACCUMULATION_END : ℤ := 180

/-- `PHASE_PARABOLIC_END` (days from bottom). -/
def PHASE_PARABOLIC_END : ℤ := 730

/-- `PHASE_DISTRIBUTION_END` (days from bottom). -/
def PHASE_DISTRIBUTION_END : ℤ := 1000

/-- `PHASE_CAPITULATION_END` (days from bottom). -/
def PHASE_CAPITULATION_END : ℤ := 1460

/-- `CYCLE_BOTTOM_DATE` = 2022-11-22, as a day number (days since
1970-01-01). -/
def CYCLE_BOTTOM_DATE : ℤ := 19318

/-- `config.get_current_cycle_phase`, with `today` passed explicitly as a day
number; `days_since_bottom = (today - CYCLE_BOTTOM_DATE.date()).days`. -/
def get_current_cycle_phase (today : ℤ) : String :=
  let days_since_bottom := today - CYCLE_BOTTOM_DATE
  if days_since_bottom ≤ PHASE_ACCUMULATION_END then "accumulation"
  else if days_since_bottom ≤ PHASE_PARABOLIC_END then "parabolic"
  else if days_since_bottom ≤ PHASE_DISTRIBUTION_END then "distribution"
  else if days_since_bottom ≤ PHASE_CAPITULATION_END then "capitulation"
  else "unknown"

/-! ## Model ensemble inference (`dynamic_predictor.py`, `make_ensemble_prediction`)

The three sklearn regressors are opaque learned functions; what the source
fixes is the set of model names, the per-model weights, and how per-model
outputs are combined.  The per-model prediction on the latest feature row is
therefore a parameter `predOf`.  The mutable `self.scalers` dict is
represented by the list of model names it holds; `self.models` always holds
exactly the three fixed names.  The fields `confidence_interval` and
`model_agreement` of the source's result dict involve a floating-point
square root (`np.std`) and are omitted: no claim depends on them. -/

/-- The fixed keys of `self.models`. -/
def model_names : List String := ["random_forest", "gradient_boosting", "linear"]

/-- The fixed ensemble weights `{'random_forest': 0.4, 'gradient_boosting': 0.4,
'linear': 0.2}`. -/
def ensembleWeights : String → ℚ
  | "random_forest" => 2/5
  | "gradient_boosting" => 2/5
  | "linear" => 1/5
  | _ => 0

/-- Result dict of `make_ensemble_prediction` (modelled fields only). -/
structure EnsembleResult where
  current_price : ℚ
  ensemble_prediction : ℚ
  individual_predictions : List (String × ℚ)
  predicted_change : ℚ
deriving DecidableEq, Repr

/-- `DynamicPredictor.make_ensemble_prediction`.  Returns `None` when
`self.scalers` is empty (`if not self.models or not self.scalers`), i.e.
before any successful training; otherwise loops over the models, skipping a
model whose name is missing from `self.scalers`, and accumulates
`prediction * weights[model_name]`.  All exceptions in the body are caught
and turned into `None`; the one modelled here is the `ZeroDivisionError`
from `predicted_change` when the latest close is `0`. -/
def make_ensemble_prediction (scalers : List String) (predOf : String → ℚ)
    (current_price : ℚ) : Option EnsembleResult :=
  if model_names = [] ∨ scalers = [] then none
  else if current_price = 0 then none
  else
    let used := model_names.filter (fun m => m ∈ scalers)
    let ensemble_prediction := (used.map (fun m => predOf m * ensembleWeights m)).sum
    some {
      current_price := current_price
      ensemble_prediction := ensemble_prediction
      individual_predictions := used.map (fun m => (m, predOf m))
      predicted_change := (ensemble_prediction - current_price) / current_price * 100
    }

/-! ## Accuracy tracker and adaptive retrainer (`dynamic_predictor.py`) -/

/-- One row of the price series as the accuracy tracker and the feature
builder see it (`load_price_data` supplies at least `date` and `close`;
`high`, `low` and `volume` are the further columns `prepare_advanced_features`
reads). Dates are day numbers. -/
structure PricePoint where
  date : ℤ
  high : ℚ
  low : ℚ
  close : ℚ
  volume : ℚ
deriving DecidableEq, Repr

/-- One stored entry of `self.predictions_history` (modelled fields: the ones
`analyze_forecast_accuracy` reads). -/
structure PredRecord where
  prediction_date : ℤ
  target_date : ℤ
  ensemble_prediction : ℚ
  individual_predictions : List (String × ℚ)
deriving DecidableEq, Repr

/-- One value of the `accuracy_analysis` dict built by
`analyze_forecast_accuracy`. -/
structure AccEntry where
  predicted_price : ℚ
  actual_price : ℚ
  error : ℚ
  error_percent : ℚ
  accuracy : ℚ
  model_accuracy : List (String × ℚ)
deriving DecidableEq, Repr

/-- The evaluation of one stored prediction:
`df[df['date'] >= target_date].iloc[0]` is the first row (in series order)
whose date is at or after the target date; if no such row exists the record
is skipped (`actual_data is None`).  A realized close of exactly `0` makes
the `error_percent` division raise `ZeroDivisionError`, which the per-record
`except` swallows, also skipping the record. -/
def evalAccuracy (prices : List PricePoint) (r : PredRecord) : Option AccEntry :=
  match prices.find? (fun p => r.target_date ≤ p.date) with
  | none => none
  | some row =>
    let actual_price := row.close
    if actual_price = 0 then none
    else
      let error := |actual_price - r.ensemble_prediction|
      let error_percent := error / actual_price * 100
      some {
        predicted_price := r.ensemble_prediction
        actual_price := actual_price
        error := error
        error_percent := error_percent
        accuracy := max 0 (100 - error_percent)
        model_accuracy := r.individual_predictions.map
          (fun nm => (nm.1, max 0 (100 - |actual_price - nm.2| / actual_price * 100)))
      }

/-- Insert into a Python dict modelled as an ordered association list: an
existing key keeps its position and gets the new value, a new key is
appended. -/
def dictUpsert (k : ℤ) (v : AccEntry) (d : List (ℤ × AccEntry)) : List (ℤ × AccEntry) :=
  if d.any (fun kv => kv.1 = k) then d.map (fun kv => if kv.1 = k then (k, v) else kv)
  else d ++ [(k, v)]

/-- The `accuracy_analysis` dict: one entry per evaluable stored prediction,
keyed by its prediction date (a duplicate prediction date overwrites the
earlier entry, as a Python dict does). -/
def accuracyAnalysis (history : List PredRecord) (prices : List PricePoint) :
    List (ℤ × AccEntry) :=
  history.foldl
    (fun d r =>
      match evalAccuracy prices r with
      | some e => dictUpsert r.prediction_date e d
      | none => d)
    []

/-- `np.mean` of a list of rationals (callers guard against the empty list). -/
def qmean (l : List ℚ) : ℚ := l.sum / l.length

/-- Python `dict.get(k, 0)` on an association list. -/
def lookupD (d : List (String × ℚ)) (k : String) : ℚ :=
  match d.find? (fun kv => kv.1 = k) with
  | some kv => kv.2
  | none => 0

/-- The `self.forecast_accuracy` summary built when `accuracy_analysis` is
nonempty. -/
structure AccSummary where
  total_predictions : ℕ
  average_accuracy : ℚ
  average_error_percent : ℚ
  model_performance : List (String × ℚ)
  detailed_analysis : List (ℤ × AccEntry)
deriving DecidableEq, Repr

/-- Build the `self.forecast_accuracy` summary from a nonempty
`accuracy_analysis`. -/
def mkAccSummary (analysis : List (ℤ × AccEntry)) : AccSummary :=
  { total_predictions := analysis.length
    average_accuracy := qmean (analysis.map (fun kv => kv.2.accuracy))
    average_error_percent := qmean (analysis.map (fun kv => kv.2.error_percent))
    model_performance := model_names.map
      (fun nm => (nm, qmean (analysis.map (fun kv => lookupD kv.2.model_accuracy nm))))
    detailed_analysis := analysis }

/-- `DynamicPredictor.analyze_forecast_accuracy`.  With an empty
`predictions_history` it returns the `{"error": "No predictions to analyze"}`
dict (`Except.error`).  Otherwise it builds `accuracy_analysis`; when that is
nonempty it stores and returns the fresh summary, and when it is empty it
returns the *previous* `self.forecast_accuracy` attribute unchanged (`none`
models the initial `{}`). -/
def analyze_forecast_accuracy (history : List PredRecord) (prices : List PricePoint)
    (forecast_accuracy : Option AccSummary) : Except String (Option AccSummary) :=
  if history = [] then .error "No predictions to analyze"
  else
    let analysis := accuracyAnalysis history prices
    if analysis = [] then .ok forecast_accuracy
    else .ok (some (mkAccSummary analysis))

/-- `DynamicPredictor.adaptive_model_update`.  Returns `some false` when the
accuracy analysis reported the error dict; with a summary available it
retrains and returns `some true` exactly when `average_accuracy < 70`, else
`some false` with no retraining.  When `analyze_forecast_accuracy` returned
the initial empty `{}` (history nonempty but nothing evaluable and no earlier
summary), the subscript `accuracy_data['average_accuracy']` raises `KeyError`,
modelled as `none`. -/
def adaptive_model_update (history : List PredRecord) (prices : List PricePoint)
    (forecast_accuracy : Option AccSummary) : Option Bool :=
  match analyze_forecast_accuracy history prices forecast_accuracy with
  | .error _ => some false
  | .ok none => none
  | .ok (some s) => some (decide (s.average_accuracy < 70))

/-! ## Feature builder (`dynamic_predictor.py`, `prepare_advanced_features`)

Column-wise pandas computations become per-index helper functions over the
lists of closes/volumes of the date-sorted series.  A cell is `none` exactly
when the pandas cell is `NaN` (dropped by `dropna`); a float `±inf` cell
(nonzero over zero) is retained by `dropna` and is modelled as a `some` cell
whose rational payload is a dummy (`x / 0 = 0` in `ℚ`) — no claim depends on
such payloads, and the theorems below assume positive prices where values
matter. -/

/-- Float division as a retained-or-dropped cell: `0.0/0.0` is `NaN`
(dropped), anything else is a retained cell. -/
def divCell (a b : ℚ) : Option ℚ :=
  if b = 0 ∧ a = 0 then none else some (a / b)

/-- `Series.rolling(w).mean()` at index `i`: defined once the window is
full. -/
def rollingMean (xs : List ℚ) (w : ℕ) (i : ℕ) : Option ℚ :=
  if i + 1 < w then none else some (((xs.drop (i + 1 - w)).take w).sum / w)

/-- `Series.pct_change(n)` at index `i`: `NaN` for the first `n` rows, then
`(x_i - x_(i-n)) / x_(i-n)` with float division semantics. -/
def pctChange (xs : List ℚ) (n i : ℕ) : Option ℚ :=
  if i < n then none
  else divCell (xs.getD i 0 - xs.getD (i - n) 0) (xs.getD (i - n) 0)

/-- The `gain` series of `_calculate_rsi`: `delta.where(delta > 0, 0)`; the
`NaN` delta of row 0 fails the condition and becomes `0`. -/
def gains (xs : List ℚ) : List ℚ :=
  (List.range xs.length).map
    (fun i => if i = 0 then 0 else max (xs.getD i 0 - xs.getD (i - 1) 0) 0)

/-- The `loss` series of `_calculate_rsi`: `(-delta.where(delta < 0, 0))`. -/
def losses (xs : List ℚ) : List ℚ :=
  (List.range xs.length).map
    (fun i => if i = 0 then 0 else max (xs.getD (i - 1) 0 - xs.getD i 0) 0)

/-- `rsi = 100 - 100/(1 + gain_mean/loss_mean)` with float semantics for a
zero loss mean: `gain_mean > 0` gives `rs = inf`, hence `rsi = 100`
(retained); `0.0/0.0` gives `NaN` (dropped). -/
def rsiCell (gm lm : ℚ) : Option ℚ :=
  if lm = 0 then (if gm = 0 then none else some 100)
  else some (100 - 100 / (1 + gm / lm))

/-- `_calculate_rsi(close, 14)` at index `i`. -/
def rsi14 (closes : List ℚ) (i : ℕ) : Option ℚ :=
  match rollingMean (gains closes) 14 i, rollingMean (losses closes) 14 i with
  | some gm, some lm => rsiCell gm lm
  | _, _ => none

/-- `Series.ewm(span).mean()` at index `i` (pandas default `adjust=True`):
weighted mean of `x_i, x_(i-1), ...` with weights `(1-α)^j`, `α = 2/(span+1)`;
defined from index 0 on. -/
def ewmMean (xs : List ℚ) (span : ℕ) (i : ℕ) : ℚ :=
  let α : ℚ := 2 / (span + 1)
  let wsum := ((List.range (i + 1)).map (fun j => (1 - α) ^ j)).sum
  let vsum := ((List.range (i + 1)).map (fun j => (1 - α) ^ j * xs.getD (i - j) 0)).sum
  vsum / wsum

/-- `_calculate_macd(close)` at index `i`. -/
def macdCell (closes : List ℚ) (i : ℕ) : ℚ :=
  ewmMean closes 12 i - ewmMean closes 26 i

/-- The current cycle of `cycle_analyzer.get_cycle_structure()['cycles'][-1]`:
its halving anchor dates, as day numbers. -/
structure CycleParams where
  halving_start : ℤ
  halving_end : ℤ
deriving DecidableEq, Repr

/-- One row of the dataframe produced by `prepare_advanced_features`: the
original columns plus every derived column, `Option` where the pandas cell
can be `NaN`. -/
structure FeatureRow where
  date : ℤ
  high : ℚ
  low : ℚ
  close : ℚ
  volume : ℚ
  price_change : Option ℚ
  price_change_30d : Option ℚ
  ma_20 : Option ℚ
  ma_50 : Option ℚ
  ma_200 : Option ℚ
  price_ma20_ratio : Option ℚ
  price_ma50_ratio : Option ℚ
  pivot : ℚ
  support_1 : ℚ
  resistance_1 : ℚ
  rsi_14 : Option ℚ
  macd : ℚ
  volume_ma_20 : Option ℚ
  volume_ratio : Option ℚ
  days_since_halving : ℤ
  cycle_progress : ℚ
  target_30d : Option ℚ
deriving DecidableEq, Repr

/-- Row `i` of the feature dataframe, before `dropna`.  `df` is the
date-sorted series, `closes`/`vols` its close/volume columns, `gainL`/`lossL`
the RSI gain/loss series (computed column-wise, as pandas does).
`hasVolume` is the `'volume' in df.columns` test: without a volume column the
source fills the two volume features with the constant `1.0`. -/
def buildRow (cyc : CycleParams) (hasVolume : Bool) (df : List PricePoint)
    (closes vols gainL lossL : List ℚ) (i : ℕ) : FeatureRow :=
  let p := df.getD i ⟨0, 0, 0, 0, 0⟩
  let pivot := (p.high + p.low + p.close) / 3
  { date := p.date
    high := p.high
    low := p.low
    close := p.close
    volume := p.volume
    price_change := pctChange closes 1 i
    price_change_30d := pctChange closes 30 i
    ma_20 := rollingMean closes 20 i
    ma_50 := rollingMean closes 50 i
    ma_200 := rollingMean closes 200 i
    price_ma20_ratio := (rollingMean closes 20 i).bind (fun m => divCell p.close m)
    price_ma50_ratio := (rollingMean closes 50 i).bind (fun m => divCell p.close m)
    pivot := pivot
    support_1 := 2 * pivot - p.high
    resistance_1 := 2 * pivot - p.low
    rsi_14 :=
      match rollingMean gainL 14 i, rollingMean lossL 14 i with
      | some gm, some lm => rsiCell gm lm
      | _, _ => none
    macd := macdCell closes i
    volume_ma_20 := if hasVolume then rollingMean vols 20 i else some 1
    volume_ratio :=
      if hasVolume then (rollingMean vols 20 i).bind (fun m => divCell p.volume m)
      else some 1
    days_since_halving := p.date - cyc.halving_start
    cycle_progress := ((p.date - cyc.halving_start : ℤ) : ℚ)
      / ((cyc.halving_end - cyc.halving_start : ℤ) : ℚ) * 100
    target_30d := if i + 30 < df.length then some (closes.getD (i + 30) 0) else none }

/-- `df.dropna()` keeps a row exactly when every cell is defined; the
original columns are never `NaN`, so only the derived `Option` cells are
tested (the order of the conjuncts is immaterial to `dropna`). -/
def rowComplete (r : FeatureRow) : Bool :=
  r.target_30d.isSome
    && r.price_change.isSome && r.price_change_30d.isSome
    && r.ma_20.isSome && r.ma_50.isSome && r.ma_200.isSome
    && r.price_ma20_ratio.isSome && r.price_ma50_ratio.isSome
    && r.rsi_14.isSome
    && r.volume_ma_20.isSome && r.volume_ratio.isSome

/-- Stable insertion into a date-sorted list. -/
def insertByDate (p : PricePoint) : List PricePoint → List PricePoint
  | [] => [p]
  | q :: rest => if p.date ≤ q.date then p :: q :: rest else q :: insertByDate p rest

/-- `df.sort_values('date')` as a stable insertion sort on the date key. -/
def sortByDate : List PricePoint → List PricePoint
  | [] => []
  | p :: rest => insertByDate p (sortByDate rest)

/-- All rows of the feature dataframe of a date-sorted series, before
`dropna`: the column-wise derived series are computed once over the whole
frame roughly as pandas does, and one `FeatureRow` is assembled per index. -/
def featureRows (cyc : CycleParams) (hasVolume : Bool) (df : List PricePoint) :
    List FeatureRow :=
  (List.range df.length).map
    (buildRow cyc hasVolume df (df.map (fun p => p.close)) (df.map (fun p => p.volume))
      (gains (df.map (fun p => p.close))) (losses (df.map (fun p => p.close))))

/-- `DynamicPredictor.prepare_advanced_features`: sort by date, compute every
derived column, drop all rows with any undefined cell.  The function has no
failure path: a series shorter than the longest window simply leaves every
row incomplete. -/
def prepare_advanced_features (cyc : CycleParams) (hasVolume : Bool)
    (s : List PricePoint) : List FeatureRow :=
  (featureRows cyc hasVolume (sortByDate s)).filter rowComplete

/-- The feature row inference reads:
`df[self.feature_columns].iloc[-1:]` is the last row surviving `dropna`. -/
def latestFeatures (cyc : CycleParams) (hasVolume : Bool)
    (s : List PricePoint) : Option FeatureRow :=
  (prepare_advanced_features cyc hasVolume s).getLast?

/-- Close price used by the concrete demonstration series: strictly
increasing, row `i` closing at `i + 1`. -/
def demoClose (i : ℕ) : ℚ := ((i + 1 : ℕ) : ℚ)

/-- A concrete 230-row price series (dates `0, 1, ..., 229`, closes
`1, 2, ..., 230`): long enough for every lookback window, so exactly one
feature row (index 199) survives `dropna`. -/
def demoSeries : List PricePoint :=
  (List.range 230).map (fun i : ℕ => ⟨(i : ℤ), 0, 0, demoClose i, 0⟩)

/-- Concrete cycle anchors for the demonstration series (the values play no
role in which rows survive). -/
def demoCycle : CycleParams := ⟨0, 1460⟩

/-! ## Theorems -/

/-- **C8**: for every date, the cycle phase classifier is a pure function of
the whole days elapsed since the most recent cycle-bottom anchor date
(2022-11-22), returning `accumulation` when elapsed ≤ 180, `parabolic` when
180 < elapsed ≤ 730, `distribution` when 730 < elapsed ≤ 1000,
`capitulation` when 1000 < elapsed ≤ 1460, and `unknown` otherwise. -/
theorem C8_cycle_phase_of_elapsed_days (today : ℤ) :
    (today - CYCLE_BOTTOM_DATE ≤ 180 → get_current_cycle_phase today = "accumulation")
    ∧ (180 < today - CYCLE_BOTTOM_DATE → today - CYCLE_BOTTOM_DATE ≤ 730 →
        get_current_cycle_phase today = "parabolic")
    ∧ (730 < today - CYCLE_BOTTOM_DATE → today - CYCLE_BOTTOM_DATE ≤ 1000 →
        get_current_cycle_phase today = "distribution")
    ∧ (1000 < today - CYCLE_BOTTOM_DATE → today - CYCLE_BOTTOM_DATE ≤ 1460 →
        get_current_cycle_phase today = "capitulation")
    ∧ (1460 < today - CYCLE_BOTTOM_DATE → get_current_cycle_phase today = "unknown") := by
  unfold get_current_cycle_phase PHASE_ACCUMULATION_END PHASE_PARABOLIC_END
    PHASE_DISTRIBUTION_END PHASE_CAPITULATION_END
  refine ⟨fun h1 => ?_, fun h1 h2 => ?_, fun h1 h2 => ?_, fun h1 h2 => ?_, fun h1 => ?_⟩ <;>
    (dsimp only; split_ifs <;> first | rfl | omega)

/-- **C8 witness**: 200 days after the anchor the classifier reports the
parabolic phase. -/
theorem C8_witness :
    get_current_cycle_phase (CYCLE_BOTTOM_DATE + 200) = "parabolic" :=
  (C8_cycle_phase_of_elapsed_days (CYCLE_BOTTOM_DATE + 200)).2.1 (by decide) (by decide)

/-- **C5 counterexample**: with no trained model state (`self.scalers` empty)
an inference call returns Python `None` — it does not fail with a
`ModelNotTrainedError` (no such class exists anywhere in the repository). -/
theorem C5_counterexample :
    make_ensemble_prediction [] (fun _ => 100000) 50000 = none := by
  rfl

/-- **C5 (amended)**: every inference request issued with no trained model
state present (empty `self.scalers`) returns `None` (no prediction), for any
per-model outputs and any current price. -/
theorem C5_untrained_inference_returns_none (predOf : String → ℚ) (current_price : ℚ) :
    make_ensemble_prediction [] predOf current_price = none := by
  simp [make_ensemble_prediction]

/-- **C1 counterexample**: a combination call in which the cycle and
technical methods produce available outputs but the ML input is Python
`None` (exactly what `make_ensemble_prediction` returns when unavailable)
raises `AttributeError` at `ml_pred.get(...)` and produces no combined point
estimate at all — so the claim, which promises a weighted-average combined
estimate for every call with at least one available method, fails. -/
theorem C1_counterexample :
    combine_predictions none (some ⟨some 120, some (4/5)⟩) (some ⟨some 100, some (1/2)⟩) 100
      = CombineResult.raised "AttributeError" := by
  rfl

/-- **C1 (amended)**: for every combination call whose three method inputs
are all dicts (an unavailable method hands over an error dict rather than
`None`), with at least one method available and a nonzero current price, the
combined point estimate equals the weighted average of the available
methods' point estimates with base weights ML=0.5, Cycle=0.3, Technical=0.2,
renormalized over the available methods (sum of weight·prediction over the
available methods divided by the sum of the used weights). -/
theorem C1_combined_is_renormalized_weighted_average
    (ml cyc tech : MethodDict) (current_price : ℚ) (hcp : current_price ≠ 0)
    (havail : ml.value.isSome ∨ cyc.value.isSome ∨ tech.value.isSome) :
    ∃ out, combine_predictions (some ml) (some cyc) (some tech) current_price
        = CombineResult.ok out
      ∧ out.combined_prediction = specWeightedAverage ml.value cyc.value tech.value := by
  obtain ⟨mv, mc⟩ := ml
  obtain ⟨cv, cc⟩ := cyc
  obtain ⟨tv, tc⟩ := tech
  cases mv <;> cases cv <;> cases tv <;>
    simp_all [combine_predictions, methodEntry, specWeightedAverage,
      mlWeight, cycleWeight, technicalWeight] <;> (try norm_num) <;> ring

/-- **C1 witness**: the spec's scenario — three methods predicting 100, 110,
90 at current price 100 — satisfies the hypotheses. -/
theorem C1_witness :
    ∃ out, combine_predictions (some ⟨some 100, some (9/10)⟩) (some ⟨some 110, some (4/5)⟩)
        (some ⟨some 90, some (1/2)⟩) 100 = CombineResult.ok out
      ∧ out.combined_prediction = specWeightedAverage (some 100) (some 110) (some 90) :=
  C1_combined_is_renormalized_weighted_average ⟨some 100, some (9/10)⟩ ⟨some 110, some (4/5)⟩
    ⟨some 90, some (1/2)⟩ 100 (by norm_num) (Or.inl rfl)

/-- **C9 counterexample**: a combination call in which exactly one method
(the technical one) produces a valid prediction, but the ML input is Python
`None`, raises `AttributeError` and produces no combined forecast — so the
claim, which promises pass-through of the single valid prediction for every
such call, fails. -/
theorem C9_counterexample :
    combine_predictions none (some ⟨none, none⟩) (some ⟨some 90, some (1/3)⟩) 80
      = CombineResult.raised "AttributeError" := by
  rfl

/-- **C9 (amended)**: for every combination call whose three method inputs
are all dicts and whose current price is nonzero, if exactly one method
produces a valid prediction then the combined point estimate equals that
method's raw prediction exactly. -/
theorem C9_single_valid_method_passes_through
    (ml cyc tech : MethodDict) (current_price : ℚ) (hcp : current_price ≠ 0) (v : ℚ)
    (hone : (ml.value = some v ∧ cyc.value = none ∧ tech.value = none)
      ∨ (ml.value = none ∧ cyc.value = some v ∧ tech.value = none)
      ∨ (ml.value = none ∧ cyc.value = none ∧ tech.value = some v)) :
    ∃ out, combine_predictions (some ml) (some cyc) (some tech) current_price
        = CombineResult.ok out
      ∧ out.combined_prediction = v := by
  obtain ⟨mv, mc⟩ := ml
  obtain ⟨cv, cc⟩ := cyc
  obtain ⟨tv, tc⟩ := tech
  rcases hone with ⟨h1, h2, h3⟩ | ⟨h1, h2, h3⟩ | ⟨h1, h2, h3⟩ <;> subst h1 <;> subst h2 <;>
    subst h3 <;>
    simp_all [combine_predictions, methodEntry, mlWeight, cycleWeight, technicalWeight]

/-- **C9 witness**: only the ML method valid (the other two hand over error
dicts), predicting 123000 at current price 100000. -/
theorem C9_witness :
    ∃ out, combine_predictions (some ⟨some 123000, some (9/10)⟩) (some ⟨none, none⟩)
        (some ⟨none, none⟩) 100000 = CombineResult.ok out
      ∧ out.combined_prediction = 123000 :=
  C9_single_valid_method_passes_through ⟨some 123000, some (9/10)⟩ ⟨none, none⟩ ⟨none, none⟩
    100000 (by norm_num) 123000 (Or.inl ⟨rfl, rfl, rfl⟩)

/-- **C10 counterexample**: a combination call in which at least one but not
all methods contribute (the cycle method contributes, ML is Python `None`,
technical hands over an error dict) raises `AttributeError` and produces no
`method_weights` mapping at all — so the claim, quantified over every such
call, fails. -/
theorem C10_counterexample :
    combine_predictions none (some ⟨some 120, some (4/5)⟩) (some ⟨none, none⟩) 100
      = CombineResult.raised "AttributeError" := by
  rfl

/-- **C10 (amended)**: for every combination call whose three method inputs
are all dicts, with at least one method contributing and a nonzero current
price, the `method_weights` mapping pairs the fixed key sequence
`['ml', 'cycle', 'technical']` positionally (zip-truncated) with the list of
raw base weights of the methods that actually contributed — so when not all
methods contribute, a key can be mapped to another method's weight, and the
recorded weights are the base weights, not the renormalized ones. -/
theorem C10_method_weights_zip_positional
    (ml cyc tech : MethodDict) (current_price : ℚ) (hcp : current_price ≠ 0)
    (havail : ml.value.isSome ∨ cyc.value.isSome ∨ tech.value.isSome) :
    ∃ out, combine_predictions (some ml) (some cyc) (some tech) current_price
        = CombineResult.ok out
      ∧ out.method_weights
          = List.zip ["ml", "cycle", "technical"]
              (contributedBaseWeights ml.value.isSome cyc.value.isSome tech.value.isSome) := by
  obtain ⟨mv, mc⟩ := ml
  obtain ⟨cv, cc⟩ := cyc
  obtain ⟨tv, tc⟩ := tech
  cases mv <;> cases cv <;> cases tv <;>
    simp_all [combine_predictions, methodEntry, contributedBaseWeights,
      mlWeight, cycleWeight, technicalWeight]

/-- **C10 witness**: the claim's example — ML unavailable (error dict),
cycle (120) and technical (100) contributing — where the mapping comes out
as `{'ml': 0.3, 'cycle': 0.2}` with `'technical'` omitted. -/
theorem C10_witness :
    (∃ out, combine_predictions (some ⟨none, none⟩) (some ⟨some 120, some (4/5)⟩)
        (some ⟨some 100, some (1/2)⟩) 100 = CombineResult.ok out
      ∧ out.method_weights
          = List.zip ["ml", "cycle", "technical"] (contributedBaseWeights false true true))
    ∧ List.zip ["ml", "cycle", "technical"] (contributedBaseWeights false true true)
        = [("ml", 3/10), ("cycle", 1/5)] :=
  ⟨C10_method_weights_zip_positional ⟨none, none⟩ ⟨some 120, some (4/5)⟩
      ⟨some 100, some (1/2)⟩ 100 (by norm_num) (Or.inr (Or.inl rfl)),
    by rfl⟩

/-- **C2 counterexample**: when only the ML (100) and cycle (120) methods
contribute, the weights recorded in the combined forecast record are the raw
base weights `[0.5, 0.3]`, whose sum `0.8` differs from `1.0` by far more
than `1e-6` — the recorded per-method weights are not renormalized. -/
theorem C2_counterexample :
    resultWeightSum (combine_predictions (some ⟨some 100, some (9/10)⟩)
        (some ⟨some 120, some (4/5)⟩) (some ⟨none, none⟩) 100) = some (4/5)
      ∧ ¬ |(4/5 : ℚ) - 1| ≤ 1/1000000 := by
  constructor
  · simp [resultWeightSum, combine_predictions, methodEntry, mlWeight, cycleWeight,
      technicalWeight]
    norm_num
  · rw [abs_of_nonpos (by norm_num : (4/5 : ℚ) - 1 ≤ 0)]
    norm_num

/-- **C2 (amended)**: the ensemble's internal strategy weights over the
three strategies sum to 1.0 exactly, and so do the renormalized effective
weights through which the combiner's weighted average is computed; but the
per-method weights recorded in the combined forecast record are the raw base
weights of the contributing methods, whose sum equals the total used base
weight and equals 1.0 only when all three methods contribute. -/
theorem C2_weight_sums
    (ml cyc tech : MethodDict) (current_price : ℚ) (hcp : current_price ≠ 0)
    (havail : ml.value.isSome ∨ cyc.value.isSome ∨ tech.value.isSome) :
    ((model_names.map ensembleWeights).sum = 1)
    ∧ ((contributedBaseWeights ml.value.isSome cyc.value.isSome tech.value.isSome).map
          (fun w => w /
            (contributedBaseWeights ml.value.isSome cyc.value.isSome tech.value.isSome).sum)).sum
        = 1
    ∧ ∃ out, combine_predictions (some ml) (some cyc) (some tech) current_price
          = CombineResult.ok out
        ∧ (out.method_weights.map Prod.snd).sum
            = (contributedBaseWeights ml.value.isSome cyc.value.isSome tech.value.isSome).sum
        ∧ (ml.value.isSome ∧ cyc.value.isSome ∧ tech.value.isSome →
            (out.method_weights.map Prod.snd).sum = 1) := by
  obtain ⟨mv, mc⟩ := ml
  obtain ⟨cv, cc⟩ := cyc
  obtain ⟨tv, tc⟩ := tech
  cases mv <;> cases cv <;> cases tv <;>
    simp_all [combine_predictions, methodEntry, contributedBaseWeights, model_names,
      ensembleWeights, mlWeight, cycleWeight, technicalWeight] <;>
    norm_num

/-- **C2 witness**: all three methods contributing (100, 110, 90) at current
price 100. -/
theorem C2_witness :
    ((model_names.map ensembleWeights).sum = 1)
    ∧ ((contributedBaseWeights true true true).map
          (fun w => w / (contributedBaseWeights true true true).sum)).sum = 1
    ∧ ∃ out, combine_predictions (some ⟨some 100, some (9/10)⟩) (some ⟨some 110, some (4/5)⟩)
          (some ⟨some 90, some (1/2)⟩) 100 = CombineResult.ok out
        ∧ (out.method_weights.map Prod.snd).sum = (contributedBaseWeights true true true).sum
        ∧ ((some (100:ℚ)).isSome ∧ (some (110:ℚ)).isSome ∧ (some (90:ℚ)).isSome →
            (out.method_weights.map Prod.snd).sum = 1) :=
  C2_weight_sums ⟨some 100, some (9/10)⟩ ⟨some 110, some (4/5)⟩ ⟨some 90, some (1/2)⟩ 100
    (by norm_num) (Or.inl rfl)

/-- Helper: with prediction dates pairwise distinct and none of them already
keyed in the accumulator, the accuracy fold never overwrites, so it appends
exactly one entry per evaluable record. -/
theorem accuracyFold_append (prices : List PricePoint) :
    ∀ (history : List PredRecord) (d : List (ℤ × AccEntry)),
      (∀ r ∈ history, ∀ kv ∈ d, kv.1 ≠ r.prediction_date) →
      (history.map (fun r => r.prediction_date)).Nodup →
      history.foldl
        (fun d r =>
          match evalAccuracy prices r with
          | some e => dictUpsert r.prediction_date e d
          | none => d) d
      = d ++ history.filterMap
          (fun r => (evalAccuracy prices r).map (fun e => (r.prediction_date, e))) := by
  intro history
  induction history with
  | nil => intro d _ _; simp
  | cons r t ih =>
    intro d hdisj hnodup
    rw [List.map_cons, List.nodup_cons] at hnodup
    obtain ⟨hr, hnd⟩ := hnodup
    rw [List.foldl_cons, List.filterMap_cons]
    cases h : evalAccuracy prices r with
    | none =>
      simp only [h]
      exact ih d (fun r' hr' kv hkv => hdisj r' (List.mem_cons_of_mem r hr') kv hkv) hnd
    | some e =>
      simp only [h]
      have hany : d.any (fun kv => kv.1 = r.prediction_date) = false := by
        rw [List.any_eq_false]
        intro kv hkv
        simpa using hdisj r (List.mem_cons_self r t) kv hkv
      have hup : dictUpsert r.prediction_date e d = d ++ [(r.prediction_date, e)] := by
        rw [dictUpsert, hany]
        simp
      rw [hup, ih (d ++ [(r.prediction_date, e)]) ?_ hnd, List.append_assoc]
      · rfl
      · intro r' hr' kv hkv
        rcases List.mem_append.mp hkv with h1 | h2
        · exact hdisj r' (List.mem_cons_of_mem r hr') kv h1
        · have hkv2 : kv = (r.prediction_date, e) := by simpa using h2
          subst hkv2
          intro hEq
          apply hr
          have hEq' : r.prediction_date = r'.prediction_date := hEq
          rw [hEq']
          exact List.mem_map_of_mem (fun r => r.prediction_date) hr'

/-- Helper: projecting the per-record dict pairs to their values gives the
list of accuracy entries of the evaluable records. -/
theorem filterMap_pair_snd (prices : List PricePoint) (history : List PredRecord) :
    (history.filterMap
        (fun r => (evalAccuracy prices r).map (fun e => (r.prediction_date, e)))).map Prod.snd
      = history.filterMap (fun r => evalAccuracy prices r) := by
  induction history with
  | nil => simp
  | cons r t ih => cases h : evalAccuracy prices r <;> simp [h, ih]

/-- Helper: with distinct prediction dates, the `accuracy_analysis` dict has
exactly the evaluable records as entries, in order. -/
theorem accuracyAnalysis_eq_filterMap (history : List PredRecord) (prices : List PricePoint)
    (hnodup : (history.map (fun r => r.prediction_date)).Nodup) :
    accuracyAnalysis history prices
      = history.filterMap
          (fun r => (evalAccuracy prices r).map (fun e => (r.prediction_date, e))) := by
  have := accuracyFold_append prices history [] (by simp) hnodup
  simpa [accuracyAnalysis] using this

/-- **C3**: over a stored prediction history with pairwise-distinct
prediction dates and at least one evaluable record, the adaptive model
update triggers retraining exactly when the mean overall accuracy across all
evaluable past forecast records is strictly below 70, and otherwise reports
that no update was performed (`False`). -/
theorem C3_retraining_iff_mean_accuracy_below_70
    (history : List PredRecord) (prices : List PricePoint)
    (forecast_accuracy : Option AccSummary)
    (hnodup : (history.map (fun r => r.prediction_date)).Nodup)
    (heval : history.filterMap (fun r => evalAccuracy prices r) ≠ []) :
    (adaptive_model_update history prices forecast_accuracy = some true
      ↔ qmean ((history.filterMap (fun r => evalAccuracy prices r)).map
          (fun e => e.accuracy)) < 70)
    ∧ (adaptive_model_update history prices forecast_accuracy = some false
      ↔ ¬ qmean ((history.filterMap (fun r => evalAccuracy prices r)).map
          (fun e => e.accuracy)) < 70) := by
  have hhist : history ≠ [] := by
    rintro rfl
    simp at heval
  have hfold := accuracyAnalysis_eq_filterMap history prices hnodup
  have hsnd := filterMap_pair_snd prices history
  have hanne : accuracyAnalysis history prices ≠ [] := by
    rw [hfold]
    intro h0
    apply heval
    rw [← hsnd, h0, List.map_nil]
  have haccs : (accuracyAnalysis history prices).map (fun kv => kv.2.accuracy)
      = (history.filterMap (fun r => evalAccuracy prices r)).map (fun e => e.accuracy) := by
    rw [hfold, ← hsnd, List.map_map]
    rfl
  have hana : analyze_forecast_accuracy history prices forecast_accuracy
      = Except.ok (some (mkAccSummary (accuracyAnalysis history prices))) := by
    rw [analyze_forecast_accuracy, if_neg hhist]
    simp [hanne]
  rw [adaptive_model_update, hana]
  simp only [mkAccSummary, haccs]
  exact ⟨by simp, by simp⟩

/-- **C3 witness**: a single stored forecast that predicted 200 while the
realized close was 100 scores accuracy 0 < 70, so the update triggers. -/
theorem C3_witness :
    adaptive_model_update [⟨0, 10, 200, []⟩] [⟨20, 0, 0, 100, 0⟩] none = some true :=
  ((C3_retraining_iff_mean_accuracy_below_70 [⟨0, 10, 200, []⟩] [⟨20, 0, 0, 100, 0⟩] none
      (by decide) (by decide)).1).mpr
    (by norm_num [evalAccuracy, qmean, abs_of_nonpos, List.filterMap_cons])

/-- Helper: on a date-sorted series, `find?` returns a row at or after the
target whose date is minimal among such rows. -/
theorem find?_first_date (t : ℤ) :
    ∀ (prices : List PricePoint), prices.Pairwise (fun p q => p.date ≤ q.date) →
      ∀ row, prices.find? (fun p => t ≤ p.date) = some row →
        t ≤ row.date ∧ ∀ p ∈ prices, t ≤ p.date → row.date ≤ p.date := by
  intro prices
  induction prices with
  | nil =>
    intro _ row h
    simp at h
  | cons p ps ih =>
    intro hsort row hfind
    obtain ⟨hhead, htail⟩ := List.pairwise_cons.mp hsort
    by_cases hp : t ≤ p.date
    · rw [List.find?_cons_of_pos _ (by simpa using hp)] at hfind
      obtain rfl : p = row := by simpa using hfind
      refine ⟨hp, ?_⟩
      intro q hq _
      rcases List.mem_cons.mp hq with rfl | hq'
      · exact le_refl _
      · exact hhead q hq'
    · rw [List.find?_cons_of_neg _ (by simpa using hp)] at hfind
      obtain ⟨h1, h2⟩ := ih htail row hfind
      refine ⟨h1, ?_⟩
      intro q hq hqt
      rcases List.mem_cons.mp hq with rfl | hq'
      · exact absurd hqt hp
      · exact h2 q hq' hqt

/-- **C7**: for every past forecast whose target date is covered by a
date-sorted, positive price series, the accuracy evaluation looks up the
realized close at the first available date at or after the target date and
computes `error = |realized − predicted|`,
`error_percent = error / realized · 100`,
`accuracy = max 0 (100 − error_percent) = clamp (100 − error_percent) 0 100`,
so the combined accuracy and every per-method accuracy lie in `[0, 100]`. -/
theorem C7_accuracy_lookup_formula_and_bounds
    (prices : List PricePoint) (r : PredRecord)
    (hsort : prices.Pairwise (fun p q => p.date ≤ q.date))
    (hpos : ∀ p ∈ prices, 0 < p.close)
    (hcover : ∃ p ∈ prices, r.target_date ≤ p.date) :
    ∃ row entry,
      prices.find? (fun p => r.target_date ≤ p.date) = some row
      ∧ r.target_date ≤ row.date
      ∧ (∀ p ∈ prices, r.target_date ≤ p.date → row.date ≤ p.date)
      ∧ evalAccuracy prices r = some entry
      ∧ entry.actual_price = row.close
      ∧ entry.error = |row.close - r.ensemble_prediction|
      ∧ entry.error_percent = entry.error / row.close * 100
      ∧ entry.accuracy = max 0 (100 - entry.error_percent)
      ∧ entry.accuracy = min 100 (max 0 (100 - entry.error_percent))
      ∧ 0 ≤ entry.accuracy ∧ entry.accuracy ≤ 100
      ∧ (∀ ma ∈ entry.model_accuracy, 0 ≤ ma.2 ∧ ma.2 ≤ 100) := by
  obtain ⟨row, hfind⟩ : ∃ row, prices.find? (fun p => r.target_date ≤ p.date) = some row := by
    rw [← Option.isSome_iff_exists, List.find?_isSome]
    obtain ⟨p, hp, ht⟩ := hcover
    exact ⟨p, hp, by simpa using ht⟩
  have hrowpos : 0 < row.close := hpos row (List.mem_of_find?_eq_some hfind)
  obtain ⟨hge, hmin⟩ := find?_first_date r.target_date prices hsort row hfind
  have heval : evalAccuracy prices r = some
      { predicted_price := r.ensemble_prediction
        actual_price := row.close
        error := |row.close - r.ensemble_prediction|
        error_percent := |row.close - r.ensemble_prediction| / row.close * 100
        accuracy := max 0 (100 - |row.close - r.ensemble_prediction| / row.close * 100)
        model_accuracy := r.individual_predictions.map
          (fun nm => (nm.1, max 0 (100 - |row.close - nm.2| / row.close * 100))) } := by
    rw [evalAccuracy, hfind]
    simp [ne_of_gt hrowpos]
  have hepnn : 0 ≤ |row.close - r.ensemble_prediction| / row.close * 100 := by positivity
  refine ⟨row, _, hfind, hge, hmin, heval, rfl, rfl, rfl, rfl, ?_, ?_, ?_, ?_⟩
  · exact (min_eq_right (max_le (by norm_num) (by linarith))).symm
  · exact le_max_left _ _
  · exact max_le (by norm_num) (by linarith)
  · intro ma hma
    obtain ⟨nm, _, rfl⟩ := List.mem_map.mp hma
    have hnn : 0 ≤ |row.close - nm.2| / row.close * 100 := by positivity
    exact ⟨le_max_left _ _, max_le (by norm_num) (by linarith)⟩

/-- **C7 witness**: a forecast that predicted 110 against a realized close
of 100 is evaluable, with error 10, error-percent 10 and accuracy 90. -/
theorem C7_witness :
    (evalAccuracy [⟨100, 0, 0, 100, 0⟩] ⟨50, 80, 110, []⟩).isSome = true
    ∧ (evalAccuracy [⟨100, 0, 0, 100, 0⟩] ⟨50, 80, 110, []⟩).map AccEntry.error = some 10
    ∧ (evalAccuracy [⟨100, 0, 0, 100, 0⟩] ⟨50, 80, 110, []⟩).map AccEntry.error_percent
        = some 10
    ∧ (evalAccuracy [⟨100, 0, 0, 100, 0⟩] ⟨50, 80, 110, []⟩).map AccEntry.accuracy = some 90 := by
  obtain ⟨row, entry, _, _, _, heval, _⟩ :=
    C7_accuracy_lookup_formula_and_bounds [⟨100, 0, 0, 100, 0⟩] ⟨50, 80, 110, []⟩
      (by simp) (by norm_num) ⟨⟨100, 0, 0, 100, 0⟩, by simp, by norm_num⟩
  refine ⟨by rw [heval]; rfl, ?_, ?_, ?_⟩ <;>
    norm_num [evalAccuracy, abs_of_nonpos]

/-- Helper: insertion into the sorted list adds one element. -/
theorem length_insertByDate (p : PricePoint) (l : List PricePoint) :
    (insertByDate p l).length = l.length + 1 := by
  induction l with
  | nil => rfl
  | cons q rest ih =>
    rw [insertByDate]
    split_ifs
    · rfl
    · simp [ih]

/-- Helper: sorting preserves length. -/
theorem length_sortByDate (l : List PricePoint) :
    (sortByDate l).length = l.length := by
  induction l with
  | nil => rfl
  | cons p rest ih => rw [sortByDate, length_insertByDate, ih, List.length_cons]

/-- Helper: a series already sorted by date is left unchanged. -/
theorem sortByDate_eq_self (l : List PricePoint)
    (h : l.Pairwise (fun p q => p.date ≤ q.date)) : sortByDate l = l := by
  induction l with
  | nil => rfl
  | cons p rest ih =>
    obtain ⟨hhead, htail⟩ := List.pairwise_cons.mp h
    rw [sortByDate, ih htail]
    cases rest with
    | nil => rfl
    | cons q rest' => rw [insertByDate, if_pos (hhead q (List.mem_cons_self q rest'))]

/-- Helper: the rows of the pre-`dropna` frame are exactly the `buildRow`
images of the indices of the sorted series. -/
theorem mem_featureRows (cyc : CycleParams) (hv : Bool) (df : List PricePoint)
    (r : FeatureRow) :
    r ∈ featureRows cyc hv df
      ↔ ∃ i, i < df.length
          ∧ r = buildRow cyc hv df (df.map (fun p => p.close)) (df.map (fun p => p.volume))
              (gains (df.map (fun p => p.close))) (losses (df.map (fun p => p.close))) i := by
  simp only [featureRows, List.mem_map, List.mem_range]
  constructor
  · rintro ⟨i, hi, rfl⟩
    exact ⟨i, hi, rfl⟩
  · rintro ⟨i, hi, rfl⟩
    exact ⟨i, hi, rfl⟩

/-- Helper: the `target_30d` cell of a built row. -/
theorem buildRow_target_30d (cyc : CycleParams) (hv : Bool) (df : List PricePoint)
    (cl v g lo : List ℚ) (i : ℕ) :
    (buildRow cyc hv df cl v g lo i).target_30d
      = if i + 30 < df.length then some (cl.getD (i + 30) 0) else none := rfl

/-- Helper: the `date` cell of a built row. -/
theorem buildRow_date (cyc : CycleParams) (hv : Bool) (df : List PricePoint)
    (cl v g lo : List ℚ) (i : ℕ) :
    (buildRow cyc hv df cl v g lo i).date = (df.getD i ⟨0, 0, 0, 0, 0⟩).date := rfl

/-- Helper: the `ma_200` cell of a built row. -/
theorem buildRow_ma_200 (cyc : CycleParams) (hv : Bool) (df : List PricePoint)
    (cl v g lo : List ℚ) (i : ℕ) :
    (buildRow cyc hv df cl v g lo i).ma_200 = rollingMean cl 200 i := rfl

/-- Helper: a surviving row has a defined 30-period-ahead label. -/
theorem rowComplete_target (r : FeatureRow) (h : rowComplete r = true) :
    r.target_30d.isSome = true := by
  rw [rowComplete] at h
  simp only [Bool.and_eq_true] at h
  exact h.1.1.1.1.1.1.1.1.1.1

/-- Helper: a surviving row has a defined 200-period average. -/
theorem rowComplete_ma_200 (r : FeatureRow) (h : rowComplete r = true) :
    r.ma_200.isSome = true := by
  rw [rowComplete] at h
  simp only [Bool.and_eq_true] at h
  exact h.1.1.1.1.1.2

/-- Helper: a float-division cell with a nonzero denominator is retained. -/
theorem divCell_isSome_den (a b : ℚ) (hb : b ≠ 0) : (divCell a b).isSome = true := by
  rw [divCell, if_neg]
  · rfl
  · rintro ⟨h1, _⟩
    exact hb h1

/-- Helper: a float-division cell with a nonzero numerator is retained. -/
theorem divCell_isSome_num (a b : ℚ) (ha : a ≠ 0) : (divCell a b).isSome = true := by
  rw [divCell, if_neg]
  · rfl
  · rintro ⟨_, h2⟩
    exact ha h2

/-- Helper: a full-window rolling mean is defined. -/
theorem rollingMean_isSome (xs : List ℚ) (w i : ℕ) (h : ¬ i + 1 < w) :
    (rollingMean xs w i).isSome = true := by
  rw [rollingMean, if_neg h]
  rfl

/-- Helper: the RSI cell is retained whenever the rolling gain mean is
nonzero. -/
theorem rsiCell_isSome_gm (gm lm : ℚ) (h : gm ≠ 0) : (rsiCell gm lm).isSome = true := by
  rw [rsiCell]
  by_cases h1 : lm = 0
  · rw [if_pos h1, if_neg h]
    rfl
  · rw [if_neg h1]
    rfl

/-- Helper: the demonstration series has 230 rows. -/
theorem demoSeries_length : demoSeries.length = 230 := by
  rw [demoSeries, List.length_map, List.length_range]

/-- Helper: the demonstration series is strictly date-sorted. -/
theorem demoSeries_sorted : demoSeries.Pairwise (fun p q => p.date < q.date) := by
  rw [demoSeries, List.pairwise_map]
  refine (List.pairwise_lt_range 230).imp ?_
  intro a b hab
  show (a : ℤ) < (b : ℤ)
  exact_mod_cast hab

/-- Helper: sorting leaves the demonstration series unchanged. -/
theorem demoSeries_sort : sortByDate demoSeries = demoSeries :=
  sortByDate_eq_self _ (demoSeries_sorted.imp (fun h => le_of_lt h))

/-- Helper: row `i` of the demonstration series. -/
theorem demoSeries_getD (i : ℕ) (hi : i < 230) :
    demoSeries.getD i ⟨0, 0, 0, 0, 0⟩ = ⟨(i : ℤ), 0, 0, demoClose i, 0⟩ := by
  rw [demoSeries, List.getD_eq_getElem _ _ (by simpa using hi), List.getElem_map,
    List.getElem_range]

/-- Helper: the close column of the demonstration series at index `i`. -/
theorem demoCloses_getD (i : ℕ) (hi : i < 230) :
    (demoSeries.map (fun p => p.close)).getD i 0 = demoClose i := by
  rw [demoSeries, List.map_map]
  rw [List.getD_eq_getElem _ _ (by simpa using hi)]
  rw [List.getElem_map, List.getElem_range]
  rfl

/-- Helper: the demonstration close prices are nonzero. -/
theorem demoClose_ne_zero (i : ℕ) : demoClose i ≠ 0 := by
  rw [demoClose]
  exact_mod_cast Nat.succ_ne_zero i

/-- Helper: the RSI gain window ending at index 199 of the demonstration
series is fourteen gains of exactly 1. -/
theorem demoGains_window :
    (((gains (demoSeries.map (fun p => p.close))).drop 186).take 14)
      = List.replicate 14 1 := by
  have hlen : (gains (demoSeries.map (fun p => p.close))).length = 230 := by
    rw [gains, List.length_map, List.length_range, List.length_map, demoSeries_length]
  apply List.ext_getElem
  · rw [List.length_take, List.length_drop, hlen, List.length_replicate]
    norm_num
  · intro n h1 h2
    rw [List.getElem_take, List.getElem_drop, List.getElem_replicate]
    have hn : n < 14 := by simpa using h2
    have hidx : 186 + n < (List.range (demoSeries.map (fun p => p.close)).length).length := by
      rw [List.length_range, List.length_map, demoSeries_length]
      omega
    simp only [gains, List.getElem_map, List.getElem_range]
    rw [if_neg (by omega : ¬186 + n = 0)]
    rw [demoCloses_getD _ (by omega), demoCloses_getD _ (by omega)]
    have h186 : 186 + n - 1 + 1 = 186 + n := by omega
    rw [demoClose, demoClose, h186]
    have : ((186 + n + 1 : ℕ) : ℚ) - ((186 + n : ℕ) : ℚ) = 1 := by
      push_cast
      ring
    rw [this]
    exact max_eq_left (by norm_num)

/-- Helper: the rolling gain mean at index 199 of the demonstration series
is 1. -/
theorem demoGm :
    rollingMean (gains (demoSeries.map (fun p => p.close))) 14 199 = some 1 := by
  rw [rollingMean, if_neg (by omega)]
  have h186 : 199 + 1 - 14 = 186 := by omega
  rw [h186, demoGains_window, List.sum_replicate]
  norm_num

/-- Helper: row 199 of the demonstration frame survives `dropna`: every
derived cell is defined. -/
theorem demo_row199_complete :
    rowComplete (buildRow demoCycle false demoSeries (demoSeries.map (fun p => p.close))
      (demoSeries.map (fun p => p.volume)) (gains (demoSeries.map (fun p => p.close)))
      (losses (demoSeries.map (fun p => p.close))) 199) = true := by
  simp only [rowComplete, buildRow, Bool.and_eq_true]
  refine ⟨⟨⟨⟨⟨⟨⟨⟨⟨⟨?_, ?_⟩, ?_⟩, ?_⟩, ?_⟩, ?_⟩, ?_⟩, ?_⟩, ?_⟩, ?_⟩, ?_⟩
  · rw [demoSeries_length, if_pos (by norm_num : (199:ℕ) + 30 < 230)]
    rfl
  · rw [pctChange, if_neg (by omega)]
    have h : (demoSeries.map (fun p => p.close)).getD (199 - 1) 0 = demoClose 198 :=
      demoCloses_getD 198 (by norm_num)
    rw [h]
    exact divCell_isSome_den _ _ (demoClose_ne_zero 198)
  · rw [pctChange, if_neg (by omega)]
    have h : (demoSeries.map (fun p => p.close)).getD (199 - 30) 0 = demoClose 169 :=
      demoCloses_getD 169 (by norm_num)
    rw [h]
    exact divCell_isSome_den _ _ (demoClose_ne_zero 169)
  · exact rollingMean_isSome _ _ _ (by omega)
  · exact rollingMean_isSome _ _ _ (by omega)
  · exact rollingMean_isSome _ _ _ (by omega)
  · obtain ⟨m, hm⟩ := Option.isSome_iff_exists.mp
      (rollingMean_isSome (demoSeries.map (fun p => p.close)) 20 199 (by omega))
    rw [hm, Option.some_bind, demoSeries_getD 199 (by norm_num)]
    exact divCell_isSome_num _ _ (demoClose_ne_zero 199)
  · obtain ⟨m, hm⟩ := Option.isSome_iff_exists.mp
      (rollingMean_isSome (demoSeries.map (fun p => p.close)) 50 199 (by omega))
    rw [hm, Option.some_bind, demoSeries_getD 199 (by norm_num)]
    exact divCell_isSome_num _ _ (demoClose_ne_zero 199)
  · obtain ⟨lm, hlm⟩ := Option.isSome_iff_exists.mp
      (rollingMean_isSome (losses (demoSeries.map (fun p => p.close))) 14 199 (by omega))
    rw [demoGm, hlm]
    exact rsiCell_isSome_gm 1 lm (by norm_num)
  · rfl
  · rfl

/-- Helper: on a series shorter than the longest (200-period) window, no row
survives `dropna` — the 200-period rolling mean is undefined everywhere. -/
theorem prepare_short_eq_nil (cyc : CycleParams) (hasVolume : Bool) (s : List PricePoint)
    (hshort : s.length < 200) :
    prepare_advanced_features cyc hasVolume s = [] := by
  rw [prepare_advanced_features, List.filter_eq_nil_iff]
  intro r hr
  obtain ⟨i, hi, rfl⟩ := (mem_featureRows _ _ _ _).mp hr
  rw [length_sortByDate] at hi
  intro hc
  have h200 := rowComplete_ma_200 _ hc
  rw [buildRow_ma_200, rollingMean, if_pos (by omega)] at h200
  simp at h200

/-- **C4 counterexample**: the spec's example input — a 50-row series with a
200-period average requested — makes feature building return an empty
feature table (a value, not an exception): the function has no failure path
and no `DataInsufficientError` class exists anywhere in the repository. -/
theorem C4_counterexample :
    prepare_advanced_features ⟨0, 1460⟩ false
      ((List.range 50).map (fun i : ℕ => ⟨(i : ℤ), 0, 0, 1, 0⟩)) = [] :=
  prepare_short_eq_nil ⟨0, 1460⟩ false _
    (by rw [List.length_map, List.length_range]; norm_num)

/-- **C4 (amended)**: for every price series shorter than the longest
required lookback window (200 periods), feature building returns an empty
feature table — no partial feature rows, and no error is raised (the code
has no `DataInsufficientError`). -/
theorem C4_short_series_returns_no_rows (cyc : CycleParams) (hasVolume : Bool)
    (s : List PricePoint) (hshort : s.length < 200) :
    prepare_advanced_features cyc hasVolume s = [] :=
  prepare_short_eq_nil cyc hasVolume s hshort

/-- **C4 witness**: a one-row series yields no feature rows. -/
theorem C4_witness :
    prepare_advanced_features ⟨0, 1460⟩ false [⟨0, 0, 0, 1, 0⟩] = [] :=
  C4_short_series_returns_no_rows ⟨0, 1460⟩ false [⟨0, 0, 0, 1, 0⟩] (by norm_num)

/-- **C6 counterexample**: on a concrete 230-row strictly-dated series the
feature table is nonempty, yet the most recent row (date 229) is not in it —
`dropna` drops every label-less row, including the single most recent one,
so inference reads a row 30 periods older instead. -/
theorem C6_counterexample :
    prepare_advanced_features demoCycle false demoSeries ≠ []
    ∧ (229 : ℤ) ∉ (prepare_advanced_features demoCycle false demoSeries).map
        FeatureRow.date := by
  have hprep : prepare_advanced_features demoCycle false demoSeries
      = (featureRows demoCycle false demoSeries).filter rowComplete := by
    rw [prepare_advanced_features, demoSeries_sort]
  constructor
  · rw [hprep]
    apply List.ne_nil_of_mem (a := buildRow demoCycle false demoSeries
      (demoSeries.map (fun p => p.close)) (demoSeries.map (fun p => p.volume))
      (gains (demoSeries.map (fun p => p.close))) (losses (demoSeries.map (fun p => p.close)))
      199)
    rw [List.mem_filter]
    refine ⟨(mem_featureRows _ _ _ _).mpr ⟨199, ?_, rfl⟩, demo_row199_complete⟩
    rw [demoSeries_length]
    omega
  · rw [hprep]
    intro hmem
    obtain ⟨r, hr, hdate⟩ := List.mem_map.mp hmem
    obtain ⟨hrf, hrc⟩ := List.mem_filter.mp hr
    obtain ⟨i, hi, rfl⟩ := (mem_featureRows _ _ _ _).mp hrf
    have ht := rowComplete_target _ hrc
    rw [buildRow_target_30d] at ht
    by_cases h : i + 30 < demoSeries.length
    case neg =>
      rw [if_neg h] at ht
      simp at ht
    rw [demoSeries_length] at h hi
    rw [buildRow_date, demoSeries_getD i hi] at hdate
    have hdate' : (i : ℤ) = 229 := hdate
    have hieq : i = 229 := by exact_mod_cast hdate'
    omega

/-- **C6 (amended)**: for every nonempty, strictly date-sorted price series,
every feature row surviving `dropna` has a defined 30-period-ahead label —
so label-less rows are excluded from the whole table, not only from training
data — and every surviving row is strictly older than the most recent input
row: the single most recent row is never retained, and in particular the row
inference reads (`iloc[-1]` of the cleaned table) predates the most recent
input row. -/
theorem C6_labelless_rows_all_dropped (cyc : CycleParams) (hasVolume : Bool)
    (s : List PricePoint) (hsort : s.Pairwise (fun p q => p.date < q.date)) (hne : s ≠ []) :
    (∀ r ∈ prepare_advanced_features cyc hasVolume s,
      r.target_30d.isSome = true ∧ r.date < (s.getLast hne).date)
    ∧ (∀ r, latestFeatures cyc hasVolume s = some r → r.date < (s.getLast hne).date) := by
  have hsorted : sortByDate s = s := sortByDate_eq_self s (hsort.imp (fun h => le_of_lt h))
  have hall : ∀ r ∈ prepare_advanced_features cyc hasVolume s,
      r.target_30d.isSome = true ∧ r.date < (s.getLast hne).date := by
    intro r hr
    rw [prepare_advanced_features, hsorted, List.mem_filter] at hr
    obtain ⟨hmem, hc⟩ := hr
    obtain ⟨i, hi, rfl⟩ := (mem_featureRows _ _ _ _).mp hmem
    have htarget := rowComplete_target _ hc
    refine ⟨htarget, ?_⟩
    rw [buildRow_target_30d] at htarget
    by_cases hlt : i + 30 < s.length
    case neg =>
      rw [if_neg hlt] at htarget
      simp at htarget
    rw [buildRow_date, List.getD_eq_getElem _ _ hi, List.getLast_eq_getElem]
    exact List.pairwise_iff_getElem.mp hsort i (s.length - 1) hi (by omega) (by omega)
  refine ⟨hall, ?_⟩
  intro r hr
  exact (hall r (List.mem_of_mem_getLast? hr)).2

/-- **C6 witness**: the amended statement instantiated on a concrete sorted
two-row series — every surviving row has a defined label. -/
theorem C6_witness :
    ((prepare_advanced_features ⟨0, 1460⟩ false
        [⟨0, 0, 0, 1, 0⟩, ⟨1, 0, 0, 2, 0⟩]).all (fun r => r.target_30d.isSome)) = true := by
  rw [List.all_eq_true]
  intro r hr
  exact ((C6_labelless_rows_all_dropped ⟨0, 1460⟩ false [⟨0, 0, 0, 1, 0⟩, ⟨1, 0, 0, 2, 0⟩]
    (by norm_num [List.pairwise_cons]) (by simp)).1 r hr).1

end BtcCycleTimer
